import Mathlib

/-!
Shallow embedding of the cart mutation core of the sportswear-shop backend
(`main.py` / `schemas.py`): product and cart documents, the Mongo-style
document store (association lists keyed by ObjectId hex strings), and the
three cart operations `add_to_cart`, `remove_from_cart`, `update_quantity`.

Modelling decisions, all taken from the source:
* Mongo `ObjectId(s)` accepts exactly 24-character hex strings and renders
  back as lowercase hex; an invalid string raises, which the handlers'
  generic `except Exception` turns into a 500 response.
* `find_one` returns the first document whose key matches; `update_one`
  with a `$set` on `items` rewrites only the `items` field of the first
  matching cart document.
* Python ints are unbounded, so quantities are `Int`; prices are decimal
  snapshots never computed with, modelled as `ℚ`.
* `payload.quantity or 1` maps 0 to 1 before the `max(1, ·)` clamp, and
  `if payload.cart_id:` treats both `None` and the empty string as absent.
-/

namespace Shop

/-- Hex-digit test used by ObjectId validation. -/
def isHexChar (c : Char) : Bool :=
  c.isDigit || (('a' ≤ c) && (c ≤ 'f')) || (('A' ≤ c) && (c ≤ 'F'))

/-- Validity test of `bson.ObjectId`: exactly 24 hex characters. -/
def isValidObjectId (s : String) : Bool :=
  s.length == 24 && s.data.all isHexChar

/-- Canonical rendering `str(ObjectId(s))`: lowercase hex. -/
def normalizeId (s : String) : String :=
  String.mk (s.data.map Char.toLower)

/-- Model of `ObjectId(s)`: the canonical key on success, `none` when
the constructor raises `InvalidId`. -/
def parseObjectId (s : String) : Option String :=
  if isValidObjectId s then some (normalizeId s) else none

/-- Detail string of the error raised by `ObjectId` on a bad input. -/
def invalidIdMsg (s : String) : String :=
  s ++ " is not a valid ObjectId"

/-- Schema `schemas.Product`. -/
structure Product where
  title : String
  description : Option String := none
  price : ℚ
  category : String
  in_stock : Bool := true
  image_url : Option String := none
  sizes : Option (List String) := none
deriving Repr, DecidableEq

/-- Schema `schemas.CartItem`. Stored documents are plain dicts, so the
`ge=1` pydantic bound on `quantity` is not re-checked by the mutation
handlers; the field is an unconstrained `Int` here. -/
structure CartItem where
  product_id : String
  quantity : Int := 1
  size : Option String := none
  unit_price : ℚ
  title : String
  image_url : Option String := none
deriving Repr, DecidableEq

/-- Schema `schemas.Cart`. -/
structure Cart where
  items : List CartItem := []
  checked_out : Bool := false
deriving Repr, DecidableEq

/-- Request body `main.AddToCartPayload`. -/
structure AddToCartPayload where
  cart_id : Option String := none
  product_id : String
  quantity : Int := 1
  size : Option String := none
deriving Repr, DecidableEq

/-- Request body `main.RemovePayload`. -/
structure RemovePayload where
  cart_id : String
  product_id : String
  size : Option String := none
deriving Repr, DecidableEq

/-- Request body `main.QtyPayload`. -/
structure QtyPayload where
  cart_id : String
  product_id : String
  size : Option String := none
  quantity : Int := 1
deriving Repr, DecidableEq

/-- Errors of `fastapi.HTTPException` as raised by the handlers: 404 with a detail
message, or the generic 500 wrapping any other exception's message. -/
inductive HErr where
  | notFound (detail : String)
  | serverError (detail : String)
deriving Repr, DecidableEq

/-- The document store: the `product` and `cart` collections, as
association lists from canonical ObjectId strings to documents. -/
structure DB where
  products : List (String × Product) := []
  carts : List (String × Cart) := []
deriving Repr, DecidableEq

/-- Lookup `collection.find_one` by `_id`: first document with the key. -/
def findDoc {β : Type} : List (String × β) → String → Option β
  | [], _ => none
  | (k, v) :: rest, key => if k == key then some v else findDoc rest key

/-- Write `collection.update_one` with a `$set` on `items`:
rewrite the `items` field of the first cart stored under `cid`. -/
def updateCartItems : List (String × Cart) → String → List CartItem → List (String × Cart)
  | [], _, _ => []
  | (k, c) :: rest, cid, items =>
    if k == cid then (k, { c with items := items }) :: rest
    else (k, c) :: updateCartItems rest cid items

/-- Clamp `max(1, payload.quantity or 1)`: Python `or` turns a falsy 0
into 1 before the clamp. -/
def clampQuantity (q : Int) : Int :=
  max 1 (if q == 0 then 1 else q)

/-- The merge loop of `add_to_cart`: bump the quantity of the first item
with the same `(product_id, size)` identity, else append at the end. -/
def mergeAdd : List CartItem → CartItem → List CartItem
  | [], item => [item]
  | it :: rest, item =>
    if it.product_id == item.product_id && it.size == item.size then
      { it with quantity := it.quantity + item.quantity } :: rest
    else
      it :: mergeAdd rest item

/-- The update loop of `update_quantity`: set the quantity of the first
item with the given identity to `max(1, q)`, then break. -/
def setQtyLoop : List CartItem → String → Option String → Int → List CartItem
  | [], _, _, _ => []
  | it :: rest, pid, sz, q =>
    if it.product_id == pid && it.size == sz then
      { it with quantity := max 1 q } :: rest
    else
      it :: setQtyLoop rest pid sz q

/-- The `CartItem(...)` construction of `add_to_cart`: identity from the
request, quantity clamped, and the three snapshot fields copied from the
product document at the moment of the call. -/
def mkSnapshotItem (prod : Product) (pid : String) (q : Int) (sz : Option String) : CartItem :=
  { product_id := pid
    quantity := clampQuantity q
    size := sz
    unit_price := prod.price
    title := prod.title
    image_url := prod.image_url }

/-- The list comprehension of `remove_from_cart`: drop every row whose
`(product_id, size)` identity matches the given pair. -/
def removeItems (items : List CartItem) (pid : String) (sz : Option String) : List CartItem :=
  items.filter (fun i => !(i.product_id == pid && i.size == sz))

/-- Handler of `POST /api/cart:add`. `freshId` stands for the ObjectId the store
would assign when a new cart document is inserted. -/
def add_to_cart (db : DB) (freshId : String) (payload : AddToCartPayload) :
    Except HErr (DB × String) :=
  match parseObjectId payload.product_id with
  | none => .error (.serverError (invalidIdMsg payload.product_id))
  | some pid =>
    match findDoc db.products pid with
    | none => .error (.notFound "Producto no encontrado")
    | some prod =>
      let item : CartItem := mkSnapshotItem prod pid payload.quantity payload.size
      let created : Except HErr (DB × String) :=
        .ok ({ db with carts :=
            db.carts ++ [(freshId, { items := [item], checked_out := false })] },
          freshId)
      match payload.cart_id with
      | none => created
      | some cidRaw =>
        if cidRaw == "" then created
        else
          match parseObjectId cidRaw with
          | none => .error (.serverError (invalidIdMsg cidRaw))
          | some cid =>
            match findDoc db.carts cid with
            | none => .error (.notFound "Carro no encontrado")
            | some cart =>
              let items := mergeAdd cart.items item
              .ok ({ db with carts := updateCartItems db.carts cid items }, cid)

/-- Handler of `POST /api/cart:remove`. -/
def remove_from_cart (db : DB) (payload : RemovePayload) : Except HErr (DB × String) :=
  match parseObjectId payload.cart_id with
  | none => .error (.serverError (invalidIdMsg payload.cart_id))
  | some cid =>
    match findDoc db.carts cid with
    | none => .error (.notFound "Carro no encontrado")
    | some cart =>
      let items := removeItems cart.items payload.product_id payload.size
      .ok ({ db with carts := updateCartItems db.carts cid items }, payload.cart_id)

/-- Handler of `POST /api/cart:qty`. -/
def update_quantity (db : DB) (payload : QtyPayload) : Except HErr (DB × String) :=
  match parseObjectId payload.cart_id with
  | none => .error (.serverError (invalidIdMsg payload.cart_id))
  | some cid =>
    match findDoc db.carts cid with
    | none => .error (.notFound "Carro no encontrado")
    | some cart =>
      let items := setQtyLoop cart.items payload.product_id payload.size payload.quantity
      .ok ({ db with carts := updateCartItems db.carts cid items }, payload.cart_id)

/-- The `(product identifier, size)` identity key of a cart row. -/
def itemKey (it : CartItem) : String × Option String :=
  (it.product_id, it.size)

/-- Identity-key test matching the comparison in the handlers. -/
def keyMatches (it : CartItem) (pid : String) (sz : Option String) : Bool :=
  it.product_id == pid && it.size == sz

/-- Whether some row of `items` carries the identity `(pid, sz)`. -/
def hasKeyB (items : List CartItem) (pid : String) (sz : Option String) : Bool :=
  items.any (fun it => keyMatches it pid sz)

/-- Quantity of the first row with identity `(pid, sz)`, if any. -/
def qtyOf (items : List CartItem) (pid : String) (sz : Option String) : Option Int :=
  (items.find? (fun it => keyMatches it pid sz)).map (fun it => it.quantity)

/-- Everything of a row except its quantity: identity plus the three
snapshot fields. -/
def snapshotOf (it : CartItem) : String × Option String × ℚ × String × Option String :=
  (it.product_id, it.size, it.unit_price, it.title, it.image_url)

/-- The uniqueness invariant: no two rows of a cart share an identity key. -/
def NoDupKeys (items : List CartItem) : Prop :=
  (items.map itemKey).Nodup

instance (items : List CartItem) : Decidable (NoDupKeys items) := by
  unfold NoDupKeys; infer_instance

/-! Support lemmas about the list-level loops and the store. -/

theorem clampQuantity_eq_max (q : Int) : clampQuantity q = max 1 q := by
  unfold clampQuantity
  rcases eq_or_ne q 0 with h | h
  · subst h; simp
  · simp [h]

theorem snapshotOf_set_quantity (it : CartItem) (q : Int) :
    snapshotOf { it with quantity := q } = snapshotOf it := rfl

theorem itemKey_set_quantity (it : CartItem) (q : Int) :
    itemKey { it with quantity := q } = itemKey it := rfl

theorem findDoc_updateCartItems (cid : String) (items : List CartItem) :
    ∀ (l : List (String × Cart)) (c : Cart), findDoc l cid = some c →
      findDoc (updateCartItems l cid items) cid = some { c with items := items }
  | [], c, h => by simp [findDoc] at h
  | (k, c') :: rest, c, h => by
    cases hk : k == cid with
    | true =>
      simp only [findDoc, hk, if_true, Option.some.injEq] at h
      subst h
      simp [updateCartItems, findDoc, hk]
    | false =>
      simp only [findDoc, hk] at h
      simp only [updateCartItems, hk, findDoc]
      simp only [Bool.false_eq_true, if_false] at h ⊢
      exact findDoc_updateCartItems cid items rest c h

theorem updateCartItems_self (cid : String) :
    ∀ (l : List (String × Cart)) (c : Cart), findDoc l cid = some c →
      updateCartItems l cid c.items = l
  | [], c, h => by simp [findDoc] at h
  | (k, c') :: rest, c, h => by
    cases hk : k == cid with
    | true =>
      simp only [findDoc, hk, if_true, Option.some.injEq] at h
      subst h
      simp [updateCartItems, hk]
    | false =>
      simp only [findDoc, hk, Bool.false_eq_true, if_false] at h
      simp only [updateCartItems, hk, Bool.false_eq_true, if_false]
      rw [updateCartItems_self cid rest c h]

theorem updateCartItems_twice (cid : String) (its1 its2 : List CartItem) :
    ∀ l : List (String × Cart),
      updateCartItems (updateCartItems l cid its1) cid its2 = updateCartItems l cid its2
  | [] => rfl
  | (k, c) :: rest => by
    cases hk : k == cid with
    | true => simp [updateCartItems, hk]
    | false =>
      simp [updateCartItems, hk, updateCartItems_twice cid its1 its2 rest]

theorem filter_twice {α : Type} (p : α → Bool) :
    ∀ l : List α, (l.filter p).filter p = l.filter p
  | [] => rfl
  | a :: l => by
    cases hp : p a <;> simp [List.filter_cons, hp, filter_twice p l]

theorem removeItems_idem (items : List CartItem) (pid : String) (sz : Option String) :
    removeItems (removeItems items pid sz) pid sz = removeItems items pid sz :=
  filter_twice _ items

theorem removeItems_of_not_hasKey (pid : String) (sz : Option String) :
    ∀ items : List CartItem, hasKeyB items pid sz = false →
      removeItems items pid sz = items
  | [], _ => rfl
  | it :: rest, h => by
    have hcons : (keyMatches it pid sz || hasKeyB rest pid sz) = false := h
    have h1 : keyMatches it pid sz = false := by
      cases hx : keyMatches it pid sz
      · rfl
      · rw [hx] at hcons; simp at hcons
    have h2 : hasKeyB rest pid sz = false := by
      cases hx : hasKeyB rest pid sz
      · rfl
      · rw [hx] at hcons; simp at hcons
    have hm : (it.product_id == pid && it.size == sz) = false := h1
    have ih := removeItems_of_not_hasKey pid sz rest h2
    unfold removeItems at ih ⊢
    simp only [List.filter_cons]
    rw [hm, ih]
    simp

theorem hasKeyB_iff_mem (pid : String) (sz : Option String) :
    ∀ items : List CartItem,
      hasKeyB items pid sz = true ↔ (pid, sz) ∈ items.map itemKey
  | [] => by simp [hasKeyB]
  | it :: rest => by
    simp only [hasKeyB, List.any_cons, Bool.or_eq_true, List.map_cons, List.mem_cons]
    constructor
    · rintro (h | h)
      · left
        simp only [keyMatches, Bool.and_eq_true, beq_iff_eq] at h
        simp [itemKey, h.1, h.2]
      · right
        exact (hasKeyB_iff_mem pid sz rest).mp h
    · rintro (h | h)
      · left
        simp only [itemKey] at h
        injection h with hp hs
        subst hp; subst hs
        simp [keyMatches]
      · right
        exact (hasKeyB_iff_mem pid sz rest).mpr h

theorem mergeAdd_quantity (item : CartItem) :
    ∀ (items : List CartItem) (n : Int),
      qtyOf items item.product_id item.size = some n →
      qtyOf (mergeAdd items item) item.product_id item.size = some (n + item.quantity)
  | [], n, h => by simp [qtyOf] at h
  | it :: rest, n, h => by
    cases hm : (it.product_id == item.product_id && it.size == item.size) with
    | true =>
      have hk : keyMatches it item.product_id item.size = true := hm
      have hk2 : keyMatches { it with quantity := it.quantity + item.quantity }
          item.product_id item.size = true := hm
      simp only [qtyOf, List.find?, hk, Option.map_some', Option.some.injEq] at h
      simp [mergeAdd, hm, qtyOf, List.find?, hk2, ← h]
    | false =>
      have hk : keyMatches it item.product_id item.size = false := hm
      simp only [qtyOf, List.find?, hk] at h
      have ih := mergeAdd_quantity item rest n h
      simpa [mergeAdd, hm, qtyOf, List.find?, hk] using ih

theorem mergeAdd_length (item : CartItem) :
    ∀ items : List CartItem,
      (mergeAdd items item).length =
        items.length + (if hasKeyB items item.product_id item.size then 0 else 1)
  | [] => by simp [mergeAdd, hasKeyB]
  | it :: rest => by
    have hcons : hasKeyB (it :: rest) item.product_id item.size =
        (keyMatches it item.product_id item.size ||
          hasKeyB rest item.product_id item.size) := rfl
    cases hm : (it.product_id == item.product_id && it.size == item.size) with
    | true =>
      have hk : keyMatches it item.product_id item.size = true := hm
      simp [mergeAdd, hm, hcons, hk]
    | false =>
      have hk : keyMatches it item.product_id item.size = false := hm
      simp only [mergeAdd, hm, Bool.false_eq_true, if_false, List.length_cons,
        hcons, hk, Bool.false_or]
      rw [mergeAdd_length item rest]
      rcases hr : hasKeyB rest item.product_id item.size <;> simp [hr]

theorem mergeAdd_snapshot (item : CartItem) :
    ∀ items : List CartItem,
      (mergeAdd items item).map snapshotOf =
        items.map snapshotOf ++
          (if hasKeyB items item.product_id item.size then [] else [snapshotOf item])
  | [] => by simp [mergeAdd, hasKeyB]
  | it :: rest => by
    have hcons : hasKeyB (it :: rest) item.product_id item.size =
        (keyMatches it item.product_id item.size ||
          hasKeyB rest item.product_id item.size) := rfl
    cases hm : (it.product_id == item.product_id && it.size == item.size) with
    | true =>
      have hk : keyMatches it item.product_id item.size = true := hm
      simp [mergeAdd, hm, hcons, hk, snapshotOf]
    | false =>
      have hk : keyMatches it item.product_id item.size = false := hm
      simp only [mergeAdd, hm, Bool.false_eq_true, if_false, List.map_cons,
        hcons, hk, Bool.false_or]
      rw [mergeAdd_snapshot item rest]
      rcases hr : hasKeyB rest item.product_id item.size <;> simp [hr]

theorem mergeAdd_keys (item : CartItem) :
    ∀ items : List CartItem,
      (mergeAdd items item).map itemKey =
        items.map itemKey ++
          (if hasKeyB items item.product_id item.size then [] else [itemKey item])
  | [] => by simp [mergeAdd, hasKeyB]
  | it :: rest => by
    have hcons : hasKeyB (it :: rest) item.product_id item.size =
        (keyMatches it item.product_id item.size ||
          hasKeyB rest item.product_id item.size) := rfl
    cases hm : (it.product_id == item.product_id && it.size == item.size) with
    | true =>
      have hk : keyMatches it item.product_id item.size = true := hm
      simp [mergeAdd, hm, hcons, hk, itemKey]
    | false =>
      have hk : keyMatches it item.product_id item.size = false := hm
      simp only [mergeAdd, hm, Bool.false_eq_true, if_false, List.map_cons,
        hcons, hk, Bool.false_or]
      rw [mergeAdd_keys item rest]
      rcases hr : hasKeyB rest item.product_id item.size <;> simp [hr]

theorem mergeAdd_of_not_hasKey (item : CartItem) :
    ∀ items : List CartItem,
      hasKeyB items item.product_id item.size = false →
      mergeAdd items item = items ++ [item]
  | [], _ => rfl
  | it :: rest, h => by
    have hcons : (keyMatches it item.product_id item.size ||
        hasKeyB rest item.product_id item.size) = false := h
    have h1 : keyMatches it item.product_id item.size = false := by
      cases hx : keyMatches it item.product_id item.size
      · rfl
      · rw [hx] at hcons; simp at hcons
    have h2 : hasKeyB rest item.product_id item.size = false := by
      cases hx : hasKeyB rest item.product_id item.size
      · rfl
      · rw [hx] at hcons; simp at hcons
    have hm : (it.product_id == item.product_id && it.size == item.size) = false := h1
    simp only [mergeAdd, hm, Bool.false_eq_true, if_false, List.cons_append]
    rw [mergeAdd_of_not_hasKey item rest h2]

theorem setQtyLoop_snapshot (pid : String) (sz : Option String) (q : Int) :
    ∀ items : List CartItem,
      (setQtyLoop items pid sz q).map snapshotOf = items.map snapshotOf
  | [] => rfl
  | it :: rest => by
    cases hm : (it.product_id == pid && it.size == sz) with
    | true => simp [setQtyLoop, hm, snapshotOf]
    | false =>
      simp only [setQtyLoop, hm, Bool.false_eq_true, if_false, List.map_cons]
      rw [setQtyLoop_snapshot pid sz q rest]

theorem setQtyLoop_keys (pid : String) (sz : Option String) (q : Int) :
    ∀ items : List CartItem,
      (setQtyLoop items pid sz q).map itemKey = items.map itemKey
  | [] => rfl
  | it :: rest => by
    cases hm : (it.product_id == pid && it.size == sz) with
    | true => simp [setQtyLoop, hm, itemKey]
    | false =>
      simp only [setQtyLoop, hm, Bool.false_eq_true, if_false, List.map_cons]
      rw [setQtyLoop_keys pid sz q rest]

theorem setQtyLoop_length (items : List CartItem) (pid : String)
    (sz : Option String) (q : Int) :
    (setQtyLoop items pid sz q).length = items.length := by
  have h := setQtyLoop_snapshot pid sz q items
  have h1 := congrArg List.length h
  simpa using h1

theorem setQtyLoop_quantity (pid : String) (sz : Option String) (q : Int) :
    ∀ (items : List CartItem) (n : Int),
      qtyOf items pid sz = some n →
      qtyOf (setQtyLoop items pid sz q) pid sz = some (max 1 q)
  | [], n, h => by simp [qtyOf] at h
  | it :: rest, n, h => by
    cases hm : (it.product_id == pid && it.size == sz) with
    | true =>
      have hk2 : keyMatches { it with quantity := max 1 q } pid sz = true := hm
      simp [setQtyLoop, hm, qtyOf, List.find?, hk2]
    | false =>
      have hk : keyMatches it pid sz = false := hm
      simp only [qtyOf, List.find?, hk] at h
      have ih := setQtyLoop_quantity pid sz q rest n h
      simpa [setQtyLoop, hm, qtyOf, List.find?, hk] using ih

theorem setQtyLoop_of_not_hasKey (pid : String) (sz : Option String) (q : Int) :
    ∀ items : List CartItem, hasKeyB items pid sz = false →
      setQtyLoop items pid sz q = items
  | [], _ => rfl
  | it :: rest, h => by
    have hcons : (keyMatches it pid sz || hasKeyB rest pid sz) = false := h
    have h1 : keyMatches it pid sz = false := by
      cases hx : keyMatches it pid sz
      · rfl
      · rw [hx] at hcons; simp at hcons
    have h2 : hasKeyB rest pid sz = false := by
      cases hx : hasKeyB rest pid sz
      · rfl
      · rw [hx] at hcons; simp at hcons
    have hm : (it.product_id == pid && it.size == sz) = false := h1
    simp only [setQtyLoop, hm, Bool.false_eq_true, if_false]
    rw [setQtyLoop_of_not_hasKey pid sz q rest h2]

theorem removeItems_sublist (items : List CartItem) (pid : String)
    (sz : Option String) :
    List.Sublist (removeItems items pid sz) items :=
  List.filter_sublist items

/-! Unfolding lemmas for the three handlers on resolving inputs. -/

theorem add_to_cart_existing (db : DB) (freshId cidRaw cid pid : String)
    (pl : AddToCartPayload) (prod : Product) (cart : Cart)
    (hc : pl.cart_id = some cidRaw) (hne : cidRaw ≠ "")
    (hpp : parseObjectId pl.product_id = some pid)
    (hprod : findDoc db.products pid = some prod)
    (hpc : parseObjectId cidRaw = some cid)
    (hcart : findDoc db.carts cid = some cart) :
    add_to_cart db freshId pl =
      .ok ({ db with carts :=
          (updateCartItems db.carts cid
            (mergeAdd cart.items (mkSnapshotItem prod pid pl.quantity pl.size))) }, cid) := by
  have hce : (cidRaw == "") = false := by simp [hne]
  simp [add_to_cart, hpp, hprod, hc, hce, hpc, hcart]

theorem add_to_cart_create (db : DB) (freshId pid : String) (pl : AddToCartPayload)
    (prod : Product)
    (hc : pl.cart_id = none ∨ pl.cart_id = some "")
    (hpp : parseObjectId pl.product_id = some pid)
    (hprod : findDoc db.products pid = some prod) :
    add_to_cart db freshId pl =
      .ok ({ db with carts :=
          db.carts ++ [(freshId, Cart.mk [mkSnapshotItem prod pid pl.quantity pl.size] false)] },
        freshId) := by
  rcases hc with hc | hc <;> simp [add_to_cart, hpp, hprod, hc]

theorem remove_from_cart_found (db : DB) (cid : String) (pl : RemovePayload)
    (cart : Cart)
    (hpc : parseObjectId pl.cart_id = some cid)
    (hcart : findDoc db.carts cid = some cart) :
    remove_from_cart db pl =
      .ok ({ db with carts :=
          updateCartItems db.carts cid (removeItems cart.items pl.product_id pl.size) },
        pl.cart_id) := by
  simp [remove_from_cart, hpc, hcart]

theorem update_quantity_found (db : DB) (cid : String) (pl : QtyPayload)
    (cart : Cart)
    (hpc : parseObjectId pl.cart_id = some cid)
    (hcart : findDoc db.carts cid = some cart) :
    update_quantity db pl =
      .ok ({ db with carts :=
          updateCartItems db.carts cid (setQtyLoop cart.items pl.product_id pl.size pl.quantity) },
        pl.cart_id) := by
  simp [update_quantity, hpc, hcart]

theorem hasKeyB_of_qtyOf (pid : String) (sz : Option String) :
    ∀ (items : List CartItem) (n : Int), qtyOf items pid sz = some n →
      hasKeyB items pid sz = true
  | [], n, h => by simp [qtyOf] at h
  | it :: rest, n, h => by
    cases hm : keyMatches it pid sz with
    | true => simp [hasKeyB, List.any_cons, hm]
    | false =>
      simp only [qtyOf, List.find?, hm] at h
      have ih := hasKeyB_of_qtyOf pid sz rest n h
      simp [hasKeyB, List.any_cons, hm, ih] at ih ⊢
      exact ih

theorem noDupKeys_mergeAdd (item : CartItem) (items : List CartItem)
    (h : NoDupKeys items) : NoDupKeys (mergeAdd items item) := by
  unfold NoDupKeys at h ⊢
  rw [mergeAdd_keys]
  cases hk : hasKeyB items item.product_id item.size with
  | true => simpa using h
  | false =>
    simp only [Bool.false_eq_true, if_false]
    rw [List.nodup_append]
    refine ⟨h, List.nodup_singleton _, ?_⟩
    intro a ha hb
    simp only [List.mem_singleton] at hb
    subst hb
    have hmem : hasKeyB items item.product_id item.size = true :=
      (hasKeyB_iff_mem item.product_id item.size items).mpr ha
    rw [hk] at hmem
    exact Bool.noConfusion hmem

theorem noDupKeys_removeItems (items : List CartItem) (pid : String)
    (sz : Option String) (h : NoDupKeys items) :
    NoDupKeys (removeItems items pid sz) :=
  List.Nodup.sublist (List.Sublist.map itemKey (removeItems_sublist items pid sz)) h

theorem noDupKeys_setQtyLoop (items : List CartItem) (pid : String)
    (sz : Option String) (q : Int) (h : NoDupKeys items) :
    NoDupKeys (setQtyLoop items pid sz q) := by
  unfold NoDupKeys at h ⊢
  rw [setQtyLoop_keys]
  exact h

theorem mkSnapshotItem_product_id (prod : Product) (pid : String) (q : Int)
    (sz : Option String) : (mkSnapshotItem prod pid q sz).product_id = pid := rfl

theorem mkSnapshotItem_size (prod : Product) (pid : String) (q : Int)
    (sz : Option String) : (mkSnapshotItem prod pid q sz).size = sz := rfl

theorem mkSnapshotItem_quantity (prod : Product) (pid : String) (q : Int)
    (sz : Option String) : (mkSnapshotItem prod pid q sz).quantity = clampQuantity q := rfl

/-! Classification of handler outcomes by HTTP status. -/

/-- Whether a handler outcome is the 404 response. -/
def isNotFoundRes {α : Type} : Except HErr α → Bool
  | .error (.notFound _) => true
  | _ => false

/-- Whether a handler outcome is the generic 500 response. -/
def isServerErrorRes {α : Type} : Except HErr α → Bool
  | .error (.serverError _) => true
  | _ => false

theorem remove_status (db : DB) (pl : RemovePayload) :
    (isNotFoundRes (remove_from_cart db pl) = true ↔
      ∃ cid, parseObjectId pl.cart_id = some cid ∧ findDoc db.carts cid = none) ∧
    (isServerErrorRes (remove_from_cart db pl) = true ↔
      parseObjectId pl.cart_id = none) := by
  cases hp : parseObjectId pl.cart_id with
  | none => simp [remove_from_cart, hp, isNotFoundRes, isServerErrorRes]
  | some cid =>
    cases hc : findDoc db.carts cid with
    | none => simp [remove_from_cart, hp, hc, isNotFoundRes, isServerErrorRes]
    | some cart => simp [remove_from_cart, hp, hc, isNotFoundRes, isServerErrorRes]

theorem update_quantity_status (db : DB) (pl : QtyPayload) :
    (isNotFoundRes (update_quantity db pl) = true ↔
      ∃ cid, parseObjectId pl.cart_id = some cid ∧ findDoc db.carts cid = none) ∧
    (isServerErrorRes (update_quantity db pl) = true ↔
      parseObjectId pl.cart_id = none) := by
  cases hp : parseObjectId pl.cart_id with
  | none => simp [update_quantity, hp, isNotFoundRes, isServerErrorRes]
  | some cid =>
    cases hc : findDoc db.carts cid with
    | none => simp [update_quantity, hp, hc, isNotFoundRes, isServerErrorRes]
    | some cart => simp [update_quantity, hp, hc, isNotFoundRes, isServerErrorRes]

theorem add_to_cart_status (db : DB) (freshId : String) (pl : AddToCartPayload) :
    (isNotFoundRes (add_to_cart db freshId pl) = true ↔
      ∃ pid, parseObjectId pl.product_id = some pid ∧
        (findDoc db.products pid = none ∨
          ∃ prod cidRaw cid, findDoc db.products pid = some prod ∧
            pl.cart_id = some cidRaw ∧ cidRaw ≠ "" ∧
            parseObjectId cidRaw = some cid ∧ findDoc db.carts cid = none)) ∧
    (isServerErrorRes (add_to_cart db freshId pl) = true ↔
      (parseObjectId pl.product_id = none ∨
        ∃ pid prod cidRaw, parseObjectId pl.product_id = some pid ∧
          findDoc db.products pid = some prod ∧
          pl.cart_id = some cidRaw ∧ cidRaw ≠ "" ∧ parseObjectId cidRaw = none)) := by
  cases hp : parseObjectId pl.product_id with
  | none => simp [add_to_cart, hp, isNotFoundRes, isServerErrorRes]
  | some pid =>
    cases hprod : findDoc db.products pid with
    | none => simp [add_to_cart, hp, hprod, isNotFoundRes, isServerErrorRes]
    | some prod =>
      cases hc : pl.cart_id with
      | none => simp [add_to_cart, hp, hprod, hc, isNotFoundRes, isServerErrorRes]
      | some cidRaw =>
        rcases eq_or_ne cidRaw "" with he | he
        · subst he
          simp [add_to_cart, hp, hprod, hc, isNotFoundRes, isServerErrorRes]
        · have hce : (cidRaw == "") = false := by simp [he]
          cases hpc : parseObjectId cidRaw with
          | none =>
            simp [add_to_cart, hp, hprod, hc, hce, hpc, he,
              isNotFoundRes, isServerErrorRes]
          | some cid =>
            cases hcart : findDoc db.carts cid with
            | none =>
              simp [add_to_cart, hp, hprod, hc, hce, hpc, hcart, he,
                isNotFoundRes, isServerErrorRes]
            | some cart =>
              simp [add_to_cart, hp, hprod, hc, hce, hpc, hcart, he,
                isNotFoundRes, isServerErrorRes]

/-! Concrete documents used to instantiate the theorems. -/

def pidA : String := "aaaaaaaaaaaaaaaaaaaaaaaa"

def cidA : String := "cccccccccccccccccccccccc"

def cidUp : String := "CCCCCCCCCCCCCCCCCCCCCCCC"

def freshA : String := "ffffffffffffffffffffffff"

def prodA : Product :=
  { title := "Camiseta Running Pro"
    description := some "Tejido respirable"
    price := 25
    category := "Ropa"
    in_stock := true
    image_url := some "https://example.com/a.jpg"
    sizes := some ["S", "M", "L"] }

def itemA : CartItem :=
  { product_id := pidA
    quantity := 2
    size := some "M"
    unit_price := 25
    title := "Camiseta Running Pro"
    image_url := some "https://example.com/a.jpg" }

def cartA : Cart := { items := [itemA], checked_out := false }

def cartB : Cart := { items := [itemA], checked_out := true }

def dbA : DB := { products := [(pidA, prodA)], carts := [(cidA, cartA)] }

def dbB : DB := { products := [(pidA, prodA)], carts := [(cidA, cartB)] }

/-! The claims. -/

/-- C1: for a cart already containing a row with identity `(p, s)` and
quantity `n`, an Add of product `p` with size `s` and requested quantity
`extra` merges into that row, whose quantity becomes `n + max(1, extra)`,
and the number of rows in the cart is unchanged. -/
theorem C1_merge_add_increments (db : DB) (freshId cidRaw cid pid : String)
    (sz : Option String) (extra n : Int) (prodDoc : Product) (cart : Cart)
    (hpp : parseObjectId pid = some pid)
    (hprod : findDoc db.products pid = some prodDoc)
    (hne : cidRaw ≠ "")
    (hpc : parseObjectId cidRaw = some cid)
    (hcart : findDoc db.carts cid = some cart)
    (hqty : qtyOf cart.items pid sz = some n) :
    ∃ (db' : DB) (cart' : Cart),
      add_to_cart db freshId ⟨some cidRaw, pid, extra, sz⟩ = .ok (db', cid) ∧
      findDoc db'.carts cid = some cart' ∧
      qtyOf cart'.items pid sz = some (n + max 1 extra) ∧
      cart'.items.length = cart.items.length := by
  have hadd := add_to_cart_existing db freshId cidRaw cid pid
    ⟨some cidRaw, pid, extra, sz⟩ prodDoc cart rfl hne hpp hprod hpc hcart
  refine ⟨_, _, hadd, findDoc_updateCartItems cid _ db.carts cart hcart, ?_, ?_⟩
  · have hq := mergeAdd_quantity (mkSnapshotItem prodDoc pid extra sz) cart.items n hqty
    simp only [mkSnapshotItem_product_id, mkSnapshotItem_size, mkSnapshotItem_quantity,
      clampQuantity_eq_max] at hq
    exact hq
  · have hl := mergeAdd_length (mkSnapshotItem prodDoc pid extra sz) cart.items
    have hk := hasKeyB_of_qtyOf pid sz cart.items n hqty
    simp only [mkSnapshotItem_product_id, mkSnapshotItem_size, hk, if_true] at hl
    simpa using hl

/-- C2: if no two rows of a cart share the same `(product identifier, size)`
identity, the cart produced by each of Add, Remove and SetQuantity again has
no two rows sharing an identity. -/
theorem C2_unique_keys_preserved (db : DB) (freshId cidRaw cid pid rpid : String)
    (q : Int) (sz rsz : Option String) (prodDoc : Product) (cart : Cart)
    (hpp : parseObjectId pid = some pid)
    (hprod : findDoc db.products pid = some prodDoc)
    (hne : cidRaw ≠ "")
    (hpc : parseObjectId cidRaw = some cid)
    (hcart : findDoc db.carts cid = some cart)
    (hnd : NoDupKeys cart.items) :
    (∃ (db' : DB) (cart' : Cart),
      add_to_cart db freshId ⟨some cidRaw, pid, q, sz⟩ = .ok (db', cid) ∧
      findDoc db'.carts cid = some cart' ∧ NoDupKeys cart'.items) ∧
    (∃ (db' : DB) (cart' : Cart),
      remove_from_cart db ⟨cidRaw, rpid, rsz⟩ = .ok (db', cidRaw) ∧
      findDoc db'.carts cid = some cart' ∧ NoDupKeys cart'.items) ∧
    (∃ (db' : DB) (cart' : Cart),
      update_quantity db ⟨cidRaw, rpid, rsz, q⟩ = .ok (db', cidRaw) ∧
      findDoc db'.carts cid = some cart' ∧ NoDupKeys cart'.items) := by
  refine ⟨?_, ?_, ?_⟩
  · exact ⟨_, _,
      add_to_cart_existing db freshId cidRaw cid pid ⟨some cidRaw, pid, q, sz⟩
        prodDoc cart rfl hne hpp hprod hpc hcart,
      findDoc_updateCartItems cid _ db.carts cart hcart,
      noDupKeys_mergeAdd _ _ hnd⟩
  · exact ⟨_, _,
      remove_from_cart_found db cid ⟨cidRaw, rpid, rsz⟩ cart hpc hcart,
      findDoc_updateCartItems cid _ db.carts cart hcart,
      noDupKeys_removeItems _ _ _ hnd⟩
  · exact ⟨_, _,
      update_quantity_found db cid ⟨cidRaw, rpid, rsz, q⟩ cart hpc hcart,
      findDoc_updateCartItems cid _ db.carts cart hcart,
      noDupKeys_setQtyLoop _ _ _ _ hnd⟩

/-- C3: an Add that carries no cart identifier inserts a fresh cart holding
exactly one row, whose quantity is `max(1, q)` (a missing quantity defaults
to 1 and a non-positive one is clamped to 1), whose `checked_out` flag is
false, and the fresh cart's identifier is returned. -/
theorem C3_create_cart (db : DB) (freshId pid : String) (q : Int) (sz : Option String)
    (prodDoc : Product)
    (hpp : parseObjectId pid = some pid)
    (hprod : findDoc db.products pid = some prodDoc) :
    ∃ cart' : Cart,
      add_to_cart db freshId ⟨none, pid, q, sz⟩ =
        .ok ({ db with carts := db.carts ++ [(freshId, cart')] }, freshId) ∧
      cart'.items.length = 1 ∧
      qtyOf cart'.items pid sz = some (max 1 q) ∧
      cart'.checked_out = false ∧
      ({ product_id := pid } : AddToCartPayload).quantity = 1 := by
  refine ⟨Cart.mk [mkSnapshotItem prodDoc pid q sz] false, ?_, rfl, ?_, rfl, rfl⟩
  · exact add_to_cart_create db freshId pid ⟨none, pid, q, sz⟩ prodDoc (Or.inl rfl) hpp hprod
  · have hk : keyMatches (mkSnapshotItem prodDoc pid q sz) pid sz = true := by
      simp [keyMatches, mkSnapshotItem_product_id, mkSnapshotItem_size]
    simp [qtyOf, List.find?, hk, mkSnapshotItem_quantity, clampQuantity_eq_max]

/-- C4: SetQuantity on a present identity sets that row's quantity to
`max(1, q)` — in particular to 1 when `q ≤ 0` — and never deletes the row:
the number of rows is unchanged. -/
theorem C4_set_quantity_floors (db : DB) (cidRaw cid rpid : String) (rsz : Option String)
    (q n : Int) (cart : Cart)
    (hpc : parseObjectId cidRaw = some cid)
    (hcart : findDoc db.carts cid = some cart)
    (hqty : qtyOf cart.items rpid rsz = some n) :
    ∃ (db' : DB) (cart' : Cart),
      update_quantity db ⟨cidRaw, rpid, rsz, q⟩ = .ok (db', cidRaw) ∧
      findDoc db'.carts cid = some cart' ∧
      qtyOf cart'.items rpid rsz = some (max 1 q) ∧
      cart'.items.length = cart.items.length := by
  refine ⟨_, _,
    update_quantity_found db cid ⟨cidRaw, rpid, rsz, q⟩ cart hpc hcart,
    findDoc_updateCartItems cid _ db.carts cart hcart, ?_, ?_⟩
  · exact setQtyLoop_quantity rpid rsz q cart.items n hqty
  · exact setQtyLoop_length cart.items rpid rsz q

/-- C5: Remove is idempotent — a second Remove with the same payload leaves
the store exactly as the first left it — and removing an identity pair that
is absent from the cart succeeds without changing anything. -/
theorem C5_remove_idempotent (db : DB) (pl : RemovePayload) :
    (∀ (db' : DB) (r : String), remove_from_cart db pl = .ok (db', r) →
      remove_from_cart db' pl = .ok (db', r)) ∧
    (∀ (cid : String) (cart : Cart),
      parseObjectId pl.cart_id = some cid →
      findDoc db.carts cid = some cart →
      hasKeyB cart.items pl.product_id pl.size = false →
      remove_from_cart db pl = .ok (db, pl.cart_id)) := by
  constructor
  · intro db' r h
    cases hp : parseObjectId pl.cart_id with
    | none => simp [remove_from_cart, hp] at h
    | some cid =>
      cases hcart : findDoc db.carts cid with
      | none => simp [remove_from_cart, hp, hcart] at h
      | some cart =>
        rw [remove_from_cart_found db cid pl cart hp hcart] at h
        simp only [Except.ok.injEq, Prod.mk.injEq] at h
        obtain ⟨hdb, hr⟩ := h
        subst hdb
        subst hr
        have hfd := findDoc_updateCartItems cid
          (removeItems cart.items pl.product_id pl.size) db.carts cart hcart
        have h2 := remove_from_cart_found
          (DB.mk db.products
            (updateCartItems db.carts cid (removeItems cart.items pl.product_id pl.size)))
          cid pl
          (Cart.mk (removeItems cart.items pl.product_id pl.size) cart.checked_out)
          hp hfd
        simpa [removeItems_idem, updateCartItems_twice] using h2
  · intro cid cart hp hcart habs
    have h1 := remove_from_cart_found db cid pl cart hp hcart
    rw [removeItems_of_not_hasKey pl.product_id pl.size cart.items habs] at h1
    rw [updateCartItems_self cid db.carts cart hcart] at h1
    exact h1

/-- C6: SetQuantity on an identity pair absent from the cart is a silent
success that changes nothing — no row is created or deleted; the store,
and in particular the cart's row sequence, is exactly as before. -/
theorem C6_set_quantity_absent_noop (db : DB) (pl : QtyPayload) (cid : String)
    (cart : Cart)
    (hpc : parseObjectId pl.cart_id = some cid)
    (hcart : findDoc db.carts cid = some cart)
    (habs : hasKeyB cart.items pl.product_id pl.size = false) :
    update_quantity db pl = .ok (db, pl.cart_id) := by
  have h1 := update_quantity_found db cid pl cart hpc hcart
  rw [setQtyLoop_of_not_hasKey pl.product_id pl.size pl.quantity cart.items habs] at h1
  rw [updateCartItems_self cid db.carts cart hcart] at h1
  exact h1

/-- C7 is false as stated: with an empty store, SetQuantity with cart_id
"x" — a supplied identifier that resolves to no stored document — returns
the generic server error (the ObjectId constructor raises before any
lookup), not NotFound. -/
theorem C7_counterexample_malformed_id :
    (DB.mk [] []).carts = [] ∧
    update_quantity (DB.mk [] []) ⟨"x", "p", none, 1⟩ =
      .error (.serverError (invalidIdMsg "x")) ∧
    isNotFoundRes (update_quantity (DB.mk [] []) ⟨"x", "p", none, 1⟩) = false :=
  ⟨rfl, rfl, rfl⟩

/-- C7 (amended): each handler signals NotFound exactly when an identifier
it dereferences (the product_id and, when a non-empty cart_id is supplied,
that cart_id, for Add; the cart_id for Remove and SetQuantity) parses as an
ObjectId but does not resolve to a stored document; it signals the generic
server error exactly when such an identifier fails to parse. -/
theorem C7_not_found_exactly_on_unresolved (db : DB) (freshId : String)
    (pa : AddToCartPayload) (pr : RemovePayload) (pq : QtyPayload) :
    ((isNotFoundRes (add_to_cart db freshId pa) = true ↔
      ∃ pid, parseObjectId pa.product_id = some pid ∧
        (findDoc db.products pid = none ∨
          ∃ prod cidRaw cid, findDoc db.products pid = some prod ∧
            pa.cart_id = some cidRaw ∧ cidRaw ≠ "" ∧
            parseObjectId cidRaw = some cid ∧ findDoc db.carts cid = none)) ∧
      (isServerErrorRes (add_to_cart db freshId pa) = true ↔
        (parseObjectId pa.product_id = none ∨
          ∃ pid prod cidRaw, parseObjectId pa.product_id = some pid ∧
            findDoc db.products pid = some prod ∧
            pa.cart_id = some cidRaw ∧ cidRaw ≠ "" ∧ parseObjectId cidRaw = none))) ∧
    ((isNotFoundRes (remove_from_cart db pr) = true ↔
      ∃ cid, parseObjectId pr.cart_id = some cid ∧ findDoc db.carts cid = none) ∧
      (isServerErrorRes (remove_from_cart db pr) = true ↔
        parseObjectId pr.cart_id = none)) ∧
    ((isNotFoundRes (update_quantity db pq) = true ↔
      ∃ cid, parseObjectId pq.cart_id = some cid ∧ findDoc db.carts cid = none) ∧
      (isServerErrorRes (update_quantity db pq) = true ↔
        parseObjectId pq.cart_id = none)) :=
  ⟨add_to_cart_status db freshId pa, remove_status db pr, update_quantity_status db pq⟩

/-- C8: the unit price, title and image URL of a row are snapshots of the
product document taken by the Add that created the row; Remove, SetQuantity
and a merging Add never change them on rows already in the cart. -/
theorem C8_snapshots_immutable (db : DB) (freshId cidRaw cid pid rpid : String)
    (q : Int) (sz rsz : Option String) (prodDoc : Product) (cart : Cart)
    (hpp : parseObjectId pid = some pid)
    (hprod : findDoc db.products pid = some prodDoc)
    (hne : cidRaw ≠ "")
    (hpc : parseObjectId cidRaw = some cid)
    (hcart : findDoc db.carts cid = some cart) :
    ((mkSnapshotItem prodDoc pid q sz).unit_price = prodDoc.price ∧
      (mkSnapshotItem prodDoc pid q sz).title = prodDoc.title ∧
      (mkSnapshotItem prodDoc pid q sz).image_url = prodDoc.image_url) ∧
    (∃ (db' : DB) (cart' : Cart),
      add_to_cart db freshId ⟨some cidRaw, pid, q, sz⟩ = .ok (db', cid) ∧
      findDoc db'.carts cid = some cart' ∧
      cart'.items.map snapshotOf =
        cart.items.map snapshotOf ++
          (if hasKeyB cart.items pid sz then []
            else [snapshotOf (mkSnapshotItem prodDoc pid q sz)])) ∧
    (∃ (db' : DB) (cart' : Cart),
      remove_from_cart db ⟨cidRaw, rpid, rsz⟩ = .ok (db', cidRaw) ∧
      findDoc db'.carts cid = some cart' ∧
      List.Sublist cart'.items cart.items) ∧
    (∃ (db' : DB) (cart' : Cart),
      update_quantity db ⟨cidRaw, rpid, rsz, q⟩ = .ok (db', cidRaw) ∧
      findDoc db'.carts cid = some cart' ∧
      cart'.items.map snapshotOf = cart.items.map snapshotOf) := by
  refine ⟨⟨rfl, rfl, rfl⟩, ?_, ?_, ?_⟩
  · refine ⟨_, _,
      add_to_cart_existing db freshId cidRaw cid pid ⟨some cidRaw, pid, q, sz⟩
        prodDoc cart rfl hne hpp hprod hpc hcart,
      findDoc_updateCartItems cid _ db.carts cart hcart, ?_⟩
    exact mergeAdd_snapshot (mkSnapshotItem prodDoc pid q sz) cart.items
  · exact ⟨_, _, remove_from_cart_found db cid ⟨cidRaw, rpid, rsz⟩ cart hpc hcart,
      findDoc_updateCartItems cid _ db.carts cart hcart,
      removeItems_sublist cart.items rpid rsz⟩
  · exact ⟨_, _, update_quantity_found db cid ⟨cidRaw, rpid, rsz, q⟩ cart hpc hcart,
      findDoc_updateCartItems cid _ db.carts cart hcart,
      setQtyLoop_snapshot rpid rsz q cart.items⟩

/-- C9: the cart sequence keeps insertion order — an Add whose identity is
new appends at the end, a merging Add keeps every row in its position (both
identities and snapshots are positionally unchanged), and Remove preserves
the relative order of the surviving rows. -/
theorem C9_insertion_order (db : DB) (freshId cidRaw cid pid rpid : String)
    (q : Int) (sz rsz : Option String) (prodDoc : Product) (cart : Cart)
    (hpp : parseObjectId pid = some pid)
    (hprod : findDoc db.products pid = some prodDoc)
    (hne : cidRaw ≠ "")
    (hpc : parseObjectId cidRaw = some cid)
    (hcart : findDoc db.carts cid = some cart) :
    (hasKeyB cart.items pid sz = false →
      ∃ db' : DB, add_to_cart db freshId ⟨some cidRaw, pid, q, sz⟩ = .ok (db', cid) ∧
        findDoc db'.carts cid =
          some (Cart.mk (cart.items ++ [mkSnapshotItem prodDoc pid q sz]) cart.checked_out)) ∧
    (hasKeyB cart.items pid sz = true →
      ∃ (db' : DB) (cart' : Cart),
        add_to_cart db freshId ⟨some cidRaw, pid, q, sz⟩ = .ok (db', cid) ∧
        findDoc db'.carts cid = some cart' ∧
        cart'.items.map itemKey = cart.items.map itemKey ∧
        cart'.items.map snapshotOf = cart.items.map snapshotOf) ∧
    (∃ (db' : DB) (cart' : Cart),
      remove_from_cart db ⟨cidRaw, rpid, rsz⟩ = .ok (db', cidRaw) ∧
      findDoc db'.carts cid = some cart' ∧
      List.Sublist cart'.items cart.items) := by
  refine ⟨?_, ?_, ?_⟩
  · intro habs
    have hadd := add_to_cart_existing db freshId cidRaw cid pid
      ⟨some cidRaw, pid, q, sz⟩ prodDoc cart rfl hne hpp hprod hpc hcart
    have hmerge : mergeAdd cart.items (mkSnapshotItem prodDoc pid q sz) =
        cart.items ++ [mkSnapshotItem prodDoc pid q sz] :=
      mergeAdd_of_not_hasKey _ cart.items habs
    refine ⟨_, hadd, ?_⟩
    rw [← hmerge]
    exact findDoc_updateCartItems cid _ db.carts cart hcart
  · intro hkey
    refine ⟨_, _,
      add_to_cart_existing db freshId cidRaw cid pid ⟨some cidRaw, pid, q, sz⟩
        prodDoc cart rfl hne hpp hprod hpc hcart,
      findDoc_updateCartItems cid _ db.carts cart hcart, ?_, ?_⟩
    · have h := mergeAdd_keys (mkSnapshotItem prodDoc pid q sz) cart.items
      simp only [mkSnapshotItem_product_id, mkSnapshotItem_size, hkey, if_true] at h
      simpa using h
    · have h := mergeAdd_snapshot (mkSnapshotItem prodDoc pid q sz) cart.items
      simp only [mkSnapshotItem_product_id, mkSnapshotItem_size, hkey, if_true] at h
      simpa using h
  · exact ⟨_, _, remove_from_cart_found db cid ⟨cidRaw, rpid, rsz⟩ cart hpc hcart,
      findDoc_updateCartItems cid _ db.carts cart hcart,
      removeItems_sublist cart.items rpid rsz⟩

/-- C10: Remove and SetQuantity write back only the `items` field — the
cart keeps its identifier and its `checked_out` flag (a checked-out cart is
still mutated), the product collection is untouched, and both handlers
return the caller-supplied cart_id string verbatim. -/
theorem C10_write_back_only_items (db : DB) (cidRaw cid rpid : String)
    (rsz : Option String) (q : Int) (cart : Cart)
    (hpc : parseObjectId cidRaw = some cid)
    (hcart : findDoc db.carts cid = some cart) :
    (∃ db' : DB,
      remove_from_cart db ⟨cidRaw, rpid, rsz⟩ = .ok (db', cidRaw) ∧
      db'.products = db.products ∧
      findDoc db'.carts cid =
        some (Cart.mk (removeItems cart.items rpid rsz) cart.checked_out)) ∧
    (∃ db' : DB,
      update_quantity db ⟨cidRaw, rpid, rsz, q⟩ = .ok (db', cidRaw) ∧
      db'.products = db.products ∧
      findDoc db'.carts cid =
        some (Cart.mk (setQtyLoop cart.items rpid rsz q) cart.checked_out)) := by
  constructor
  · exact ⟨_, remove_from_cart_found db cid ⟨cidRaw, rpid, rsz⟩ cart hpc hcart,
      rfl, findDoc_updateCartItems cid _ db.carts cart hcart⟩
  · exact ⟨_, update_quantity_found db cid ⟨cidRaw, rpid, rsz, q⟩ cart hpc hcart,
      rfl, findDoc_updateCartItems cid _ db.carts cart hcart⟩

/-! Witnesses: each theorem applied at a concrete store. -/

/-- Instance of C1 on the sample store: adding 3 more of the product
already in the cart at size M takes its quantity from 2 to 5. -/
theorem C1_merge_add_increments_witness :
    qtyOf cartA.items pidA (some "M") = some 2 ∧
    ∃ (db' : DB) (cart' : Cart),
      add_to_cart dbA freshA ⟨some cidA, pidA, 3, some "M"⟩ = .ok (db', cidA) ∧
      findDoc db'.carts cidA = some cart' ∧
      qtyOf cart'.items pidA (some "M") = some (2 + max 1 3) ∧
      cart'.items.length = cartA.items.length :=
  ⟨by decide,
    C1_merge_add_increments dbA freshA cidA cidA pidA (some "M") 3 2 prodA cartA
      (by decide) (by decide) (by decide) (by decide) (by decide) (by decide)⟩

/-- Instance of C2 on the sample store. -/
theorem C2_unique_keys_preserved_witness :
    NoDupKeys cartA.items ∧
    ((∃ (db' : DB) (cart' : Cart),
      add_to_cart dbA freshA ⟨some cidA, pidA, 1, some "M"⟩ = .ok (db', cidA) ∧
      findDoc db'.carts cidA = some cart' ∧ NoDupKeys cart'.items) ∧
    (∃ (db' : DB) (cart' : Cart),
      remove_from_cart dbA ⟨cidA, pidA, some "M"⟩ = .ok (db', cidA) ∧
      findDoc db'.carts cidA = some cart' ∧ NoDupKeys cart'.items) ∧
    (∃ (db' : DB) (cart' : Cart),
      update_quantity dbA ⟨cidA, pidA, some "M", 1⟩ = .ok (db', cidA) ∧
      findDoc db'.carts cidA = some cart' ∧ NoDupKeys cart'.items)) :=
  ⟨by decide,
    C2_unique_keys_preserved dbA freshA cidA cidA pidA pidA 1 (some "M") (some "M")
      prodA cartA (by decide) (by decide) (by decide) (by decide) (by decide) (by decide)⟩

/-- Instance of C3: an Add with no cart identifier and quantity 0 creates a
one-row cart with quantity 1. -/
theorem C3_create_cart_witness :
    ∃ cart' : Cart,
      add_to_cart dbA freshA ⟨none, pidA, 0, some "L"⟩ =
        .ok ({ dbA with carts := dbA.carts ++ [(freshA, cart')] }, freshA) ∧
      cart'.items.length = 1 ∧
      qtyOf cart'.items pidA (some "L") = some (max 1 0) ∧
      cart'.checked_out = false ∧
      ({ product_id := pidA } : AddToCartPayload).quantity = 1 :=
  C3_create_cart dbA freshA pidA 0 (some "L") prodA (by decide) (by decide)

/-- Instance of C4: SetQuantity with -5 floors the row's quantity to 1. -/
theorem C4_set_quantity_floors_witness :
    qtyOf cartA.items pidA (some "M") = some 2 ∧ max 1 (-5 : Int) = 1 ∧
    ∃ (db' : DB) (cart' : Cart),
      update_quantity dbA ⟨cidA, pidA, some "M", -5⟩ = .ok (db', cidA) ∧
      findDoc db'.carts cidA = some cart' ∧
      qtyOf cart'.items pidA (some "M") = some (max 1 (-5)) ∧
      cart'.items.length = cartA.items.length :=
  ⟨by decide, by decide,
    C4_set_quantity_floors dbA cidA cidA pidA (some "M") (-5) 2 cartA
      (by decide) (by decide) (by decide)⟩

/-- Instance of C5: removing an identity pair absent from the sample cart
returns ok and leaves the store untouched. -/
theorem C5_remove_idempotent_witness :
    remove_from_cart dbA ⟨cidA, "absent", none⟩ = .ok (dbA, cidA) :=
  (C5_remove_idempotent dbA ⟨cidA, "absent", none⟩).2 cidA cartA
    (by decide) (by decide) (by decide)

/-- Instance of C6: SetQuantity on the absent size XL is a silent no-op. -/
theorem C6_set_quantity_absent_noop_witness :
    update_quantity dbA ⟨cidA, pidA, some "XL", 7⟩ = .ok (dbA, cidA) :=
  C6_set_quantity_absent_noop dbA ⟨cidA, pidA, some "XL", 7⟩ cidA cartA
    (by decide) (by decide) (by decide)

/-- Instance of the amended C7: a well-formed but unresolved cart
identifier yields NotFound on SetQuantity. -/
theorem C7_not_found_witness :
    isNotFoundRes (update_quantity (DB.mk [] []) ⟨cidA, "p", none, 1⟩) = true :=
  ((C7_not_found_exactly_on_unresolved (DB.mk [] []) freshA ⟨none, "p", 1, none⟩
      ⟨cidA, "p", none⟩ ⟨cidA, "p", none, 1⟩).2.2.1).mpr
    ⟨cidA, by decide, rfl⟩

/-- Instance of C8: SetQuantity leaves every snapshot field of the sample
cart's rows unchanged. -/
theorem C8_snapshots_immutable_witness :
    ∃ (db' : DB) (cart' : Cart),
      update_quantity dbA ⟨cidA, pidA, some "M", 9⟩ = .ok (db', cidA) ∧
      findDoc db'.carts cidA = some cart' ∧
      cart'.items.map snapshotOf = cartA.items.map snapshotOf :=
  (C8_snapshots_immutable dbA freshA cidA cidA pidA pidA 9 (some "M") (some "M")
    prodA cartA (by decide) (by decide) (by decide) (by decide) (by decide)).2.2.2

/-- Instance of C9: adding size L, absent from the sample cart, appends the
new row at the end of the sequence. -/
theorem C9_insertion_order_witness :
    ∃ db' : DB,
      add_to_cart dbA freshA ⟨some cidA, pidA, 1, some "L"⟩ = .ok (db', cidA) ∧
      findDoc db'.carts cidA =
        some (Cart.mk (cartA.items ++ [mkSnapshotItem prodA pidA 1 (some "L")]) cartA.checked_out) :=
  (C9_insertion_order dbA freshA cidA cidA pidA pidA 1 (some "L") (some "L") prodA cartA
    (by decide) (by decide) (by decide) (by decide) (by decide)).1 (by decide)

/-- Instance of C10 on a checked-out cart addressed with an uppercase
identifier: the mutation is applied, `checked_out` stays true, and the
uppercase cart_id string is returned verbatim. -/
theorem C10_write_back_only_items_witness :
    ∃ db' : DB,
      update_quantity dbB ⟨cidUp, pidA, some "M", 5⟩ = .ok (db', cidUp) ∧
      db'.products = dbB.products ∧
      findDoc db'.carts cidA =
        some (Cart.mk (setQtyLoop cartB.items pidA (some "M") 5) cartB.checked_out) :=
  (C10_write_back_only_items dbB cidUp cidA pidA (some "M") 5 cartB
    (by decide) (by decide)).2

end Shop
